import Mathlib

/-!
Shallow embedding of the OpenFeature MCP server tools
(`src/tools/ofrepTools.ts` and `src/tools/installTools.ts`).

Modelling conventions:
* JavaScript JSON values are the inductive `Json` below.  JSON objects are
  association lists; inputs produced by `JSON.parse` never carry duplicate
  keys, and all concrete objects used in theorems are duplicate-free, so
  first-match lookup models JS property access faithfully.
* `JSON.stringify` drops fields whose value is `undefined`; results built by
  the code are therefore modelled as `Json` objects in which such fields are
  conditionally omitted, and tool results are compared at the JSON-value
  level (the code serialises them with `jsonStringifySafe`).
* `undefined`/absent values are `Option.none`; the JS nullish-coalescing
  operator is `coalesce` (an empty string is NOT nullish); JS string
  truthiness (`if (s)`) is `strTruthy`.
* The single `fetch` is modelled by passing in a `FetchOutcome`: either a
  resolved `HttpResponse` or a rejection message (the `catch` branch).
  Reading an already-consumed body rejects, which the source catches into
  the empty string; `handleResponse` reflects that.
-/

inductive Json where
  | null : Json
  | bool (b : Bool) : Json
  | num (n : Int) : Json
  | str (s : String) : Json
  | arr (elems : List Json) : Json
  | obj (fields : List (String × Json)) : Json

/-- First-match association-list lookup, modelling JS object property access. -/
def assocFind {α : Type} (m : List (String × α)) (k : String) : Option α :=
  (m.find? (fun p => p.1 == k)).map (fun p => p.2)

/-- The JS nullish-coalescing operator `a ?? b` (an empty string is not nullish). -/
def coalesce {α : Type} : Option α → Option α → Option α
  | some x, _ => some x
  | none, b => b

/-- JS truthiness of a string: only the empty string is falsy. -/
def strTruthy (s : String) : Bool := s != ""

/-- JS truthiness of an optional string (`undefined` is falsy). -/
def optTruthy : Option String → Bool
  | some s => strTruthy s
  | none => false

/-- Model of `s.replace(/\/$/, "")`: remove a single trailing slash (code point 47). -/
def stripTrailingSlash (s : String) : String :=
  match s.data.getLast? with
  | some c => if c = Char.ofNat 47 then String.mk s.data.dropLast else s
  | none => s

/-- Uppercase hexadecimal digit for `n < 16`. -/
def hexDigit (n : Nat) : Char :=
  if n < 10 then Char.ofNat (48 + n) else Char.ofNat (55 + n)

/-- Percent-encoding of one byte, e.g. `32 ↦ "%20"`. -/
def pctByte (b : Nat) : String :=
  String.mk [Char.ofNat 37, hexDigit (b / 16), hexDigit (b % 16)]

/-- UTF-8 bytes of a Unicode code point. -/
def utf8Bytes (c : Nat) : List Nat :=
  if c < 128 then [c]
  else if c < 2048 then [192 + c / 64, 128 + c % 64]
  else if c < 65536 then [224 + c / 4096, 128 + (c / 64) % 64, 128 + c % 64]
  else [240 + c / 262144, 128 + (c / 4096) % 64, 128 + (c / 64) % 64, 128 + c % 64]

/-- Characters left unescaped by `encodeURIComponent`: ASCII letters and
digits plus hyphen, underscore, dot, exclamation mark, tilde, asterisk,
apostrophe and parentheses (given by code point below). -/
def uriUnreserved (c : Char) : Bool :=
  let n := c.toNat
  (65 ≤ n && n ≤ 90) || (97 ≤ n && n ≤ 122) || (48 ≤ n && n ≤ 57) ||
  n == 45 || n == 95 || n == 46 || n == 33 || n == 126 ||
  n == 42 || n == 39 || n == 40 || n == 41

/-- JS `encodeURIComponent`: unreserved characters pass through, all others
are percent-encoded as UTF-8 bytes. -/
def encodeURIComponent (s : String) : String :=
  s.data.foldl
    (fun acc c =>
      if uriUnreserved c then acc.push c
      else acc ++ String.join ((utf8Bytes c.toNat).map pctByte))
    ""

/-! ## OFREP tool argument and configuration model (`ofrepTools.ts`) -/

/-- The optional `auth` argument object of `OfrepArgsSchema`. -/
structure OfrepAuth where
  bearer_token : Option String
  api_key : Option String
deriving DecidableEq, Repr

/-- Parsed `OfrepArgsSchema` arguments.  `context` is the open JSON object
(zod passthrough), kept as a `Json` value. -/
structure OfrepArgs where
  base_url : Option String
  flag_key : Option String
  context : Option Json
  etag : Option String
  auth : Option OfrepAuth

/-- The six environment variables read by `resolveConfig` and friends. -/
structure Env where
  openfeatureOfrepBaseUrl : Option String
  ofrepBaseUrl : Option String
  openfeatureOfrepBearerToken : Option String
  ofrepBearerToken : Option String
  openfeatureOfrepApiKey : Option String
  ofrepApiKey : Option String
deriving DecidableEq, Repr

/-- The nested `OFREP` section of the config file (`OfrepConfigSchema`). -/
structure OfrepConfig where
  baseUrl : String
  bearerToken : Option String
  token : Option String
  apiKey : Option String
deriving DecidableEq, Repr

/-- zod parse of one optional string field: absent is fine, present must be a
string, anything else fails the whole parse. -/
def parseOptStr (fs : List (String × Json)) (k : String) : Option (Option String) :=
  match assocFind fs k with
  | none => some none
  | some (Json.str s) => some (some s)
  | some _ => none

/-- Model of `OfrepConfigSchema.parse`: `baseUrl` a string of length ≥ 1, the three
auth fields optional strings, refined by the JS-truthiness requirement
`bearerToken || token || apiKey`. -/
def parseOfrepConfig (j : Json) : Option OfrepConfig :=
  match j with
  | Json.obj fs =>
    match assocFind fs "baseUrl" with
    | some (Json.str b) =>
      if b.length ≥ 1 then
        match parseOptStr fs "bearerToken", parseOptStr fs "token", parseOptStr fs "apiKey" with
        | some bt, some tk, some ak =>
          if optTruthy bt || optTruthy tk || optTruthy ak then
            some ⟨b, bt, tk, ak⟩
          else none
        | _, _, _ => none
      else none
    | _ => none
  | _ => none

/-- Model of `readConfigFromFile`: the file content after `JSON.parse` (`none` when the
file is missing or unparseable), then `ConfigFileSchema.parse` extracting the
`OFREP` section; every failure is caught and becomes `none`. -/
def readConfigFromFile (file : Option Json) : Option OfrepConfig :=
  match file with
  | none => none
  | some (Json.obj fs) =>
    match assocFind fs "OFREP" with
    | some o => parseOfrepConfig o
    | none => none
  | some _ => none

/-- The `Required<OfrepConfig>` record produced by `resolveConfig`. -/
structure ResolvedConfig where
  baseUrl : String
  bearerToken : String
  token : String
  apiKey : String
deriving DecidableEq, Repr

/-- Model of `resolveConfig`: per-field nullish-coalescing chains over call argument,
environment variables (OPENFEATURE_ spelling first), and config file, then
the JS-falsiness guard `if (!baseUrl) return null`. -/
def resolveConfig (args : OfrepArgs) (env : Env) (file : Option Json) :
    Option ResolvedConfig :=
  let envBase := coalesce env.openfeatureOfrepBaseUrl env.ofrepBaseUrl
  let envBearer := coalesce env.openfeatureOfrepBearerToken env.ofrepBearerToken
  let envApiKey := coalesce env.openfeatureOfrepApiKey env.ofrepApiKey
  let fileCfg := readConfigFromFile file
  let baseUrl := coalesce args.base_url (coalesce envBase (fileCfg.map (fun c => c.baseUrl)))
  let bearerToken :=
    coalesce (args.auth.bind (fun a => a.bearer_token))
      (coalesce envBearer
        (coalesce (fileCfg.bind (fun c => c.bearerToken))
          (fileCfg.bind (fun c => c.token))))
  let apiKey :=
    coalesce (args.auth.bind (fun a => a.api_key))
      (coalesce envApiKey (fileCfg.bind (fun c => c.apiKey)))
  match baseUrl with
  | none => none
  | some b =>
    if strTruthy b then
      some ⟨b, bearerToken.getD "", "", apiKey.getD ""⟩
    else none

/-! ## OFREP request construction (`callOfrepApi`, request half) -/

/-- The outbound HTTP request handed to `fetch`. -/
structure Request where
  url : String
  method : String
  headers : List (String × String)
  body : Json

/-- Mode test `typeof parsed.flag_key === "string" && parsed.flag_key.length > 0`. -/
def isSingle (args : OfrepArgs) : Bool :=
  match args.flag_key with
  | some k => k.length > 0
  | none => false

/-- Request construction in `callOfrepApi`: URL selection with the trailing
slash of the base stripped, the fixed JSON headers, conditional auth and
`If-None-Match` headers, and the `{ context: ... }` body. -/
def buildRequest (cfg : ResolvedConfig) (args : OfrepArgs) : Request :=
  let base := stripTrailingSlash cfg.baseUrl
  let url :=
    if isSingle args then
      base ++ "/ofrep/v1/evaluate/flags/" ++
        encodeURIComponent (args.flag_key.getD "")
    else base ++ "/ofrep/v1/evaluate/flags"
  let headers :=
    [("content-type", "application/json"), ("accept", "application/json")] ++
    (if strTruthy cfg.bearerToken then
      [("authorization", "Bearer " ++ cfg.bearerToken)] else []) ++
    (if strTruthy cfg.apiKey then [("X-API-Key", cfg.apiKey)] else []) ++
    (if !isSingle args && optTruthy args.etag then
      [("If-None-Match", args.etag.getD "")] else [])
  { url := url, method := "POST", headers := headers,
    body := Json.obj [("context", args.context.getD (Json.obj []))] }

/-- Value of a request header, by first-match lookup. -/
def headerVal (req : Request) (name : String) : Option String :=
  assocFind req.headers name

/-! ## OFREP response handling (`callOfrepApi`, response half) -/

/-- The resolved `fetch` response.  `etag` is `headers.get("ETag")` (the
`Headers.get` lookup is case-insensitive, so one field models the chained
gets); `contentType` is `headers.get("content-type")`; `bodyJson` is what
`response.json()` yields (`none` on a parse failure); `bodyText` is what
`response.text()` yields on a first read. -/
structure HttpResponse where
  status : Nat
  etag : Option String
  contentType : Option String
  bodyJson : Option Json
  bodyText : String

/-- Naive substring search over character lists. -/
def charsContain : List Char → List Char → Bool
  | [], pat => pat.isEmpty
  | s@(_ :: tl), pat => pat.isPrefixOf s || charsContain tl pat

/-- JS `String.prototype.includes`. -/
def strIncludes (s pat : String) : Bool := charsContain s.data pat.data

/-- Model of `(response.headers.get("content-type") ?? "").includes("application/json")`. -/
def ctIsJson (r : HttpResponse) : Bool :=
  strIncludes ((coalesce r.contentType (some "")).getD "") "application/json"

/-- Model of `response.ok`: status in the inclusive range 200–299. -/
def respOk (r : HttpResponse) : Bool := 200 ≤ r.status && r.status ≤ 299

/-- The `data` local: JSON parse result when the content type indicates JSON
(`none` = `undefined` on a parse failure), otherwise the body text. -/
def respData (r : HttpResponse) : Option Json :=
  if ctIsJson r then r.bodyJson else some (Json.str r.bodyText)

/-- The `hasData` guard of the error branch: a non-empty string, or an object
value with at least one key (a JS array also has `typeof "object"` and its
indices as keys; `null`, numbers and booleans fail both disjuncts). -/
def jsHasData : Option Json → Bool
  | some (Json.str s) => s != ""
  | some (Json.obj fs) => !fs.isEmpty
  | some (Json.arr xs) => !xs.isEmpty
  | _ => false

/-- The `errorMessage` local: the data when `hasData` holds, otherwise the
re-read `response.text().catch(() => "")`, which is the empty string because
the body stream was already consumed by the first read. -/
def jsErrorMessage (d : Option Json) : Json :=
  if jsHasData d then d.getD (Json.str "") else Json.str ""

/-- The `etag` field list of a result object: dropped by `JSON.stringify`
when the response carried no ETag header. -/
def etagField (r : HttpResponse) : List (String × Json) :=
  match r.etag with
  | some e => [("etag", Json.str e)]
  | none => []

/-- The `data` field list of a result object: dropped by `JSON.stringify`
when `data` is `undefined`. -/
def dataField (d : Option Json) : List (String × Json) :=
  match d with
  | some v => [("data", v)]
  | none => []

/-- Response handling of `callOfrepApi`: the 304 short-circuit (checked
before any body read, in both modes), the structured error result for
non-ok statuses, and the success results (`status` hard-coded to 200,
`etag` included only in bulk mode). -/
def handleResponse (single : Bool) (r : HttpResponse) : Json :=
  if r.status = 304 then
    Json.obj ([("status", Json.num 304)] ++ etagField r ++
      [("message", Json.str "Bulk evaluation not modified")])
  else
    let d := respData r
    if !respOk r then
      Json.obj [("status", Json.num r.status), ("error", jsErrorMessage d)]
    else if single then
      Json.obj ([("status", Json.num 200)] ++ dataField d)
    else
      Json.obj ([("status", Json.num 200)] ++ etagField r ++ dataField d)

/-- Outcome of the single `fetch`: a resolved response, or a rejection whose
`Error` message is carried (the `catch (err)` branch). -/
inductive FetchOutcome where
  | success (r : HttpResponse) : FetchOutcome
  | failure (msg : String) : FetchOutcome

/-- Model of `callOfrepApi` as a whole: the try/catch around the fetch.  A rejected
fetch yields the single-field error object; a resolved response goes through
`handleResponse`.  The function is total: nothing escapes as an exception. -/
def callOfrepApi (args : OfrepArgs) (outcome : FetchOutcome) : Json :=
  match outcome with
  | FetchOutcome.failure m => Json.obj [("error", Json.str m)]
  | FetchOutcome.success r => handleResponse (isSingle args) r

/-- The missing-configuration message returned by the tool handler. -/
def missingBaseUrlMsg : String :=
  "Missing base_url configuration. Provide base_url in args, set OPENFEATURE_OFREP_BASE_URL, or configure ~/.openfeature-mcp.json."

/-- Observable outcome of one `ofrep_flag_eval` invocation: either the
configuration-missing text with no request issued, or exactly one request
together with the JSON result object. -/
inductive ToolOutcome where
  | missingConfig (msg : String) : ToolOutcome
  | fetched (req : Request) (result : Json) : ToolOutcome

/-- The `ofrep_flag_eval` handler registered by `registerOfrepTools`:
resolve the configuration, short-circuit with the missing-config text when
resolution fails (no fetch), otherwise build and issue the one request. -/
def ofrepFlagEval (args : OfrepArgs) (env : Env) (file : Option Json)
    (outcome : FetchOutcome) : ToolOutcome :=
  match resolveConfig args env file with
  | none => ToolOutcome.missingConfig missingBaseUrlMsg
  | some cfg => ToolOutcome.fetched (buildRequest cfg args) (callOfrepApi args outcome)

/-! ## Install-guide tool (`installTools.ts`)

Modelled from the spec: the generated tables `BUNDLED_PROMPTS`,
`INSTALL_GUIDES`, `providersSchema` and `PROVIDER_DOCS` come from
`promptsBundle.generated` / `providersBundle.generated`, build-generated
files that are not part of the repository sources.  Per the spec they are a
static guide-to-markdown map, a fixed guide-identifier set, a fixed
provider-identifier set, and a static provider-and-guide-to-URL map; they
are modelled here as the fields of `InstallTables`, and the handler logic
below is translated from `registerInstallTools` in `installTools.ts`. -/

structure InstallTables where
  guides : List String
  prompts : List (String × String)
  providers : List String
  providerDocs : List (String × List (String × String))
deriving DecidableEq, Repr

/-- Result of one `install_openfeature_sdk` invocation: the returned markdown
text, or a failed call (zod validation error or a thrown error, both caught
and surfaced as an error response by the error-handling wrapper, with no
guide text). -/
inductive InstallResult where
  | ok (text : String) : InstallResult
  | err (msg : String) : InstallResult
deriving DecidableEq, Repr

/-- The provider note pushed for one provider: the URL line when
`providerDocLinks[guide] || ""` is truthy, otherwise the search suggestion
line; a provider missing from `PROVIDER_DOCS` throws. -/
def providerNote (t : InstallTables) (guide p : String) : Except String String :=
  match assocFind t.providerDocs p with
  | none =>
    Except.error ("Provider " ++ p ++ " is not recognized. Available providers: " ++
      String.intercalate ", " (t.providerDocs.map (fun q => q.1)))
  | some links =>
    let perGuideUrl := (assocFind links guide).getD ""
    if strTruthy perGuideUrl then
      Except.ok ("- **" ++ p ++ "**: Fetch the provider installation instructions from this link: " ++
        perGuideUrl ++ ". Follow the documentation to install and configure this provider alongside the OpenFeature " ++
        guide ++ " SDK.")
    else
      Except.ok ("- **" ++ p ++ "**: No specific " ++ guide ++
        " documentation URL found. Search for \"" ++ p ++ " OpenFeature " ++ guide ++
        "\" installation documentation and provide installation instructions if available.")

/-- The `providerNotes` accumulation loop; the first unrecognized provider
aborts the whole call. -/
def buildNotes (t : InstallTables) (guide : String) :
    List String → Except String (List String)
  | [] => Except.ok []
  | p :: rest =>
    match providerNote t guide p with
    | Except.error m => Except.error m
    | Except.ok note =>
      match buildNotes t guide rest with
      | Except.error m => Except.error m
      | Except.ok notes => Except.ok (note :: notes)

/-- The appendix block: empty when no notes, otherwise the horizontal-rule
separated provider section. -/
def providersAppendix (guide : String) (notes : List String) : String :=
  if notes.isEmpty then ""
  else
    "\n\n---\n\nProvider installation instructions for " ++ guide ++ ":\n\n" ++
    String.intercalate "\n" notes

/-- The `install_openfeature_sdk` handler: zod validation of `guide` against
the guide enum and of every provider against the provider enum (a failure
is caught by the error wrapper: no text is returned), then the bundled
prompt plus the provider appendix. -/
def installGuide (t : InstallTables) (guide : String) (provs : List String) :
    InstallResult :=
  if t.guides.contains guide then
    if provs.all (fun p => t.providers.contains p) then
      match buildNotes t guide provs with
      | Except.error m => InstallResult.err m
      | Except.ok notes =>
        InstallResult.ok ((assocFind t.prompts guide).getD "" ++
          providersAppendix guide notes)
    else InstallResult.err "unrecognized provider in providers list"
  else InstallResult.err "unrecognized guide"

/-! ## Concrete sample values used by witnesses and counterexamples -/

/-- Field access on a JSON object value. -/
def getField (j : Json) (k : String) : Option Json :=
  match j with
  | Json.obj fs => assocFind fs k
  | _ => none

/-- Discriminator: is this optional JSON value a string? -/
def isSomeStr : Option Json → Bool
  | some (Json.str _) => true
  | _ => false

/-- A 304 bulk response carrying an ETag header and no readable body. -/
def r304 : HttpResponse :=
  ⟨304, some "\"abc123\"", some "application/json", none, ""⟩

/-- A resolved configuration with no auth material. -/
def cfgPlain : ResolvedConfig := ⟨"https://flags.example.com", "", "", ""⟩

/-- Bulk-mode arguments supplying an empty-string etag. -/
def argsEmptyEtag : OfrepArgs := ⟨none, none, none, some "", none⟩

/-- A resolved configuration whose base URL carries a trailing slash. -/
def cfgSlash : ResolvedConfig := ⟨"https://flags.example.com/", "", "", ""⟩

/-- Bulk-mode arguments with no optional field supplied. -/
def argsBulkPlain : OfrepArgs := ⟨none, none, none, none, none⟩

/-- Arguments supplying an explicit slash-terminated base URL and a flag key. -/
def argsC5 : OfrepArgs :=
  ⟨some "https://args.example.com/", some "test-flag", none, none, none⟩

/-- An environment carrying a conflicting base URL and bearer token. -/
def envC5 : Env :=
  ⟨some "https://env.example.com", none, some "env-token", none, none, none⟩

/-- A config file carrying a conflicting base URL and bearer token. -/
def fileC5 : Option Json :=
  some (Json.obj [("OFREP", Json.obj [("baseUrl", Json.str "https://file.example.com"),
    ("bearerToken", Json.str "file-token")])])

/-- Arguments with an explicit base URL, used by the C5 witness. -/
def argsW5 : OfrepArgs := ⟨some "https://args.example.com", none, none, none, none⟩

/-- The configuration that resolution yields for `argsW5` under `envC5`. -/
def cfgW5 : ResolvedConfig := ⟨"https://args.example.com", "env-token", "", ""⟩

/-- A 404 JSON response whose body parses to the empty object. -/
def rEmptyJsonErr : HttpResponse :=
  ⟨404, none, some "application/json", some (Json.obj []), "\x7b\x7d"⟩

/-- The 404 flag-not-found response of the specification example. -/
def r404 : HttpResponse :=
  ⟨404, none, some "application/json",
    some (Json.obj [("errorCode", Json.str "FLAG_NOT_FOUND")]),
    "\x7b\"errorCode\":\"FLAG_NOT_FOUND\"\x7d"⟩

/-- Is an install invocation a failed call? -/
def InstallResult.isErr : InstallResult → Bool
  | InstallResult.err _ => true
  | InstallResult.ok _ => false

/-- A concrete static-table instance used by install-tool witnesses: two
guides, two providers, one mapped documentation URL. -/
def tSample : InstallTables :=
  ⟨["javascript", "react"],
   [("javascript", "JS PROMPT"), ("react", "REACT PROMPT")],
   ["acme", "zephyr"],
   [("acme", [("javascript", "https://docs.example/acme-js")]), ("zephyr", [])]⟩

/-- The documentation URL the table maps for a provider and guide, with the
`|| ""` default of the source. -/
def docUrl (t : InstallTables) (p guide : String) : String :=
  match assocFind t.providerDocs p with
  | some links => (assocFind links guide).getD ""
  | none => ""

/-- The instruction line emitted for a provider whose documentation URL for
the guide is known. -/
def urlNoteLine (p guide url : String) : String :=
  "- **" ++ p ++ "**: Fetch the provider installation instructions from this link: " ++
    url ++ ". Follow the documentation to install and configure this provider alongside the OpenFeature " ++
    guide ++ " SDK."

/-- An environment with none of the OFREP variables set. -/
def envEmpty : Env := ⟨none, none, none, none, none, none⟩

/-- The OFREP section fields of a config file naming only a base URL. -/
def fileNoAuth : List (String × Json) :=
  [("OFREP", Json.obj [("baseUrl", Json.str "https://cfg.example.com")])]

/-! ## Theorems -/

/-- C7: when the outbound fetch rejects with message `m`, the tool result is
exactly the one-field object `{error: m}`; the catch branch is total, so the
failure never escapes the tool boundary as an exception. -/
theorem ofrep_networkFailureResult (args : OfrepArgs) (m : String) :
    callOfrepApi args (FetchOutcome.failure m) = Json.obj [("error", Json.str m)] :=
  rfl

/-- When no source supplies a non-empty base URL, configuration resolution
returns `none`. -/
lemma resolveConfig_noBase (args : OfrepArgs) (env : Env) (file : Option Json)
    (h1 : args.base_url = none ∨ args.base_url = some "")
    (h2 : env.openfeatureOfrepBaseUrl = none ∨ env.openfeatureOfrepBaseUrl = some "")
    (h3 : env.ofrepBaseUrl = none ∨ env.ofrepBaseUrl = some "")
    (h4 : ∀ c, readConfigFromFile file = some c → c.baseUrl = "") :
    resolveConfig args env file = none := by
  unfold resolveConfig
  cases hf : readConfigFromFile file with
  | none =>
    rcases h1 with h1 | h1 <;> rcases h2 with h2 | h2 <;> rcases h3 with h3 | h3 <;>
      simp [h1, h2, h3, coalesce, strTruthy]
  | some c =>
    have hc := h4 c hf
    rcases h1 with h1 | h1 <;> rcases h2 with h2 | h2 <;> rcases h3 with h3 | h3 <;>
      simp [h1, h2, h3, hc, coalesce, strTruthy]

/-- Failed resolution short-circuits the tool into the missing-configuration
text with no request. -/
lemma ofrepFlagEval_noConfig (args : OfrepArgs) (env : Env) (file : Option Json)
    (outcome : FetchOutcome) (h : resolveConfig args env file = none) :
    ofrepFlagEval args env file outcome = ToolOutcome.missingConfig missingBaseUrlMsg := by
  simp [ofrepFlagEval, h]

/-- C2: when the call argument, both base-URL environment variables, and the
config file all fail to supply a non-empty base URL, the tool returns the
descriptive configuration-missing result and no request is issued (the
outcome of any would-be fetch is irrelevant). -/
theorem ofrep_missingConfig (args : OfrepArgs) (env : Env) (file : Option Json)
    (outcome : FetchOutcome)
    (h1 : args.base_url = none ∨ args.base_url = some "")
    (h2 : env.openfeatureOfrepBaseUrl = none ∨ env.openfeatureOfrepBaseUrl = some "")
    (h3 : env.ofrepBaseUrl = none ∨ env.ofrepBaseUrl = some "")
    (h4 : ∀ c, readConfigFromFile file = some c → c.baseUrl = "") :
    ofrepFlagEval args env file outcome = ToolOutcome.missingConfig missingBaseUrlMsg :=
  ofrepFlagEval_noConfig args env file outcome (resolveConfig_noBase args env file h1 h2 h3 h4)

/-- C2 witness: with no argument, empty-string environment variables and a
config file whose OFREP section lacks every auth field (so the file is
rejected), the call returns the missing-configuration text. -/
theorem ofrep_missingConfig_witness :
    ofrepFlagEval ⟨none, some "f", none, none, none⟩
      ⟨some "", none, none, none, none, none⟩
      (some (Json.obj [("OFREP", Json.obj [("baseUrl", Json.str "https://file.example.com")])]))
      (FetchOutcome.failure "unreached") =
      ToolOutcome.missingConfig missingBaseUrlMsg :=
  ofrep_missingConfig _ _ _ _ (Or.inl rfl) (Or.inr rfl) (Or.inl rfl)
    (fun c hc => by simp [readConfigFromFile, parseOfrepConfig, assocFind, parseOptStr, optTruthy] at hc)

/-- C1 counterexample: on a bulk 304 response the result object carries a
`message` field, not the claimed `notModified: true` field, and the same
304 short-circuit fires in single-flag mode as well. -/
theorem ofrep_304_claimShape_counterexample :
    handleResponse false r304 ≠
      Json.obj [("status", Json.num 304), ("etag", Json.str "\"abc123\""),
        ("notModified", Json.bool true)] ∧
    handleResponse true r304 = handleResponse false r304 := by
  constructor
  · intro h
    exact Bool.noConfusion (congrArg (fun j => (getField j "notModified").isSome) h)
  · rfl

/-- C1 amended: whenever the response status is 304 (bulk or single mode),
the result is exactly `{status: 304, etag: <response ETag if present>,
message: "Bulk evaluation not modified"}`, and the result does not depend on
the response body, which is never read. -/
theorem ofrep_304_result (single : Bool) (r : HttpResponse) (h : r.status = 304) :
    handleResponse single r =
      Json.obj ([("status", Json.num 304)] ++ etagField r ++
        [("message", Json.str "Bulk evaluation not modified")]) ∧
    ∀ bj bt, handleResponse single { r with bodyJson := bj, bodyText := bt } =
      handleResponse single r := by
  constructor
  · simp [handleResponse, h]
  · intro bj bt
    simp [handleResponse, h, etagField]

/-- C1 witness: the amended 304 shape on a concrete bulk response with an
ETag header. -/
theorem ofrep_304_result_witness :
    r304.status = 304 ∧
    handleResponse false r304 =
      Json.obj [("status", Json.num 304), ("etag", Json.str "\"abc123\""),
        ("message", Json.str "Bulk evaluation not modified")] :=
  ⟨rfl, (ofrep_304_result false r304 rfl).1⟩

/-- C4 counterexample: in bulk mode with a supplied (but empty) etag, the
request carries no `If-None-Match` header, refuting the claimed equivalence
with "an etag was supplied". -/
theorem ofrep_ifNoneMatch_emptyEtag_counterexample :
    argsEmptyEtag.etag = some "" ∧ isSingle argsEmptyEtag = false ∧
    headerVal (buildRequest cfgPlain argsEmptyEtag) "If-None-Match" = none :=
  ⟨rfl, rfl, rfl⟩

/-- C4 amended: the `If-None-Match` header is present, with exactly the
caller-supplied etag as value, if and only if the request is in bulk mode
and the supplied etag is non-empty; single-flag requests never carry it. -/
theorem ofrep_ifNoneMatch_header (cfg : ResolvedConfig) (args : OfrepArgs) :
    headerVal (buildRequest cfg args) "If-None-Match" =
      match args.etag with
      | some e => if isSingle args then none else if e = "" then none else some e
      | none => none := by
  cases he : args.etag with
  | none =>
    cases hs : isSingle args <;>
    by_cases hb : cfg.bearerToken = "" <;>
    by_cases ha : cfg.apiKey = "" <;>
      simp [buildRequest, headerVal, assocFind, he, hs, hb, ha, optTruthy,
        strTruthy, List.find?]
  | some e =>
    by_cases hee : e = "" <;>
    cases hs : isSingle args <;>
    by_cases hb : cfg.bearerToken = "" <;>
    by_cases ha : cfg.apiKey = "" <;>
      simp [buildRequest, headerVal, assocFind, he, hs, hb, ha, hee, optTruthy,
        strTruthy, List.find?]

/-- C3 counterexample: with a base URL ending in a slash, the outbound URL is
the base with the slash stripped plus the bulk path, not the verbatim base
followed by the path. -/
theorem ofrep_url_trailingSlash_counterexample :
    (buildRequest cfgSlash argsBulkPlain).url =
      "https://flags.example.com/ofrep/v1/evaluate/flags" ∧
    (buildRequest cfgSlash argsBulkPlain).url ≠
      cfgSlash.baseUrl ++ "/ofrep/v1/evaluate/flags" := by
  exact ⟨by decide, by decide⟩

/-- C3 amended: the one outbound request is a POST with the JSON content
negotiation headers, the conditional auth headers, the `{context: ...}`
body, and the endpoint URL built from the base URL with at most one
trailing slash removed. -/
theorem ofrep_request_shape (cfg : ResolvedConfig) (args : OfrepArgs) :
    (buildRequest cfg args).method = "POST" ∧
    headerVal (buildRequest cfg args) "content-type" = some "application/json" ∧
    headerVal (buildRequest cfg args) "accept" = some "application/json" ∧
    headerVal (buildRequest cfg args) "authorization" =
      (if cfg.bearerToken = "" then none else some ("Bearer " ++ cfg.bearerToken)) ∧
    headerVal (buildRequest cfg args) "X-API-Key" =
      (if cfg.apiKey = "" then none else some cfg.apiKey) ∧
    (buildRequest cfg args).body = Json.obj [("context", args.context.getD (Json.obj []))] ∧
    (buildRequest cfg args).url =
      (if isSingle args then
        stripTrailingSlash cfg.baseUrl ++ "/ofrep/v1/evaluate/flags/" ++
          encodeURIComponent (args.flag_key.getD "")
       else stripTrailingSlash cfg.baseUrl ++ "/ofrep/v1/evaluate/flags") := by
  refine ⟨rfl, ?_, ?_, ?_, ?_, rfl, ?_⟩ <;>
  [skip; skip; skip; skip; cases hs : isSingle args <;> simp [buildRequest, hs]] <;>
  cases hs : isSingle args <;>
  by_cases hb : cfg.bearerToken = "" <;>
  by_cases ha : cfg.apiKey = "" <;>
  cases he : optTruthy args.etag <;>
    simp [buildRequest, headerVal, assocFind, hs, hb, ha, he, strTruthy, List.find?]

/-- C5 counterexample: the explicit argument wins over the conflicting
environment and file values inside the resolver, but the outbound URL uses
the base with its trailing slash stripped, so the argument is not used
verbatim as the base of the request. -/
theorem ofrep_baseUrl_verbatim_counterexample :
    resolveConfig argsC5 envC5 fileC5 =
      some ⟨"https://args.example.com/", "env-token", "", ""⟩ ∧
    (buildRequest ⟨"https://args.example.com/", "env-token", "", ""⟩ argsC5).url ≠
      "https://args.example.com/" ++ "/ofrep/v1/evaluate/flags/test-flag" ∧
    (buildRequest ⟨"https://args.example.com/", "env-token", "", ""⟩ argsC5).url =
      "https://args.example.com/ofrep/v1/evaluate/flags/test-flag" := by
  exact ⟨by decide, by decide, by decide⟩

/-- C5 amended: a non-empty explicit `base_url` argument is the resolved base
URL verbatim, regardless of environment variables and config file, and the
outbound request URL is that argument with at most one trailing slash
removed followed by the endpoint path. -/
theorem ofrep_baseUrl_precedence (args : OfrepArgs) (env : Env) (file : Option Json)
    (outcome : FetchOutcome) (u : String)
    (hu : args.base_url = some u) (hne : u ≠ "") :
    (resolveConfig args env file).map ResolvedConfig.baseUrl = some u ∧
    ∀ cfg, resolveConfig args env file = some cfg →
      ofrepFlagEval args env file outcome =
        ToolOutcome.fetched (buildRequest cfg args) (callOfrepApi args outcome) ∧
      (buildRequest cfg args).url =
        stripTrailingSlash u ++
          (if isSingle args then
            "/ofrep/v1/evaluate/flags/" ++ encodeURIComponent (args.flag_key.getD "")
           else "/ofrep/v1/evaluate/flags") := by
  constructor
  · simp [resolveConfig, hu, coalesce, strTruthy, hne]
  · intro cfg hres
    have hcfg : cfg.baseUrl = u := by
      simp [resolveConfig, hu, coalesce, strTruthy, hne] at hres
      cases hres
      rfl
    constructor
    · simp [ofrepFlagEval, hres]
    · cases hs : isSingle args <;>
        simp [buildRequest, hs, hcfg, String.append_assoc]

/-- C5 witness: concrete resolution against a conflicting environment and
config file. -/
theorem ofrep_baseUrl_precedence_witness :
    (resolveConfig argsW5 envC5 fileC5).map ResolvedConfig.baseUrl =
      some "https://args.example.com" ∧
    ofrepFlagEval argsW5 envC5 fileC5 (FetchOutcome.failure "boom") =
      ToolOutcome.fetched (buildRequest cfgW5 argsW5)
        (callOfrepApi argsW5 (FetchOutcome.failure "boom")) ∧
    (buildRequest cfgW5 argsW5).url =
      stripTrailingSlash "https://args.example.com" ++ "/ofrep/v1/evaluate/flags" :=
  ⟨(ofrep_baseUrl_precedence argsW5 envC5 fileC5 (FetchOutcome.failure "boom")
      "https://args.example.com" rfl (by decide)).1,
   (ofrep_baseUrl_precedence argsW5 envC5 fileC5 (FetchOutcome.failure "boom")
      "https://args.example.com" rfl (by decide)).2 cfgW5 (by decide)⟩

/-- C6 counterexample: a 404 JSON response with body `{}` yields
`{status: 404, error: ""}` (the consumed-body fallback), not the claimed
`{status: 404, error: {}}`. -/
theorem ofrep_httpError_counterexample :
    handleResponse true rEmptyJsonErr =
      Json.obj [("status", Json.num 404), ("error", Json.str "")] ∧
    handleResponse true rEmptyJsonErr ≠
      Json.obj [("status", Json.num 404), ("error", Json.obj [])] := by
  constructor
  · rfl
  · intro h
    exact Bool.noConfusion (congrArg (fun j => isSomeStr (getField j "error")) h)

/-- C6 amended: on a non-2xx, non-304 response the result is the structured
`{status, error}` object, never an exception; `error` is the parsed JSON
body when the content type indicates JSON and that body is a non-empty
object or a non-empty string, the raw text when the content type is not
JSON and the text is non-empty, and the empty string in the fallback cases
(empty JSON object, or an unparseable body), because the body stream is
already consumed when the fallback re-reads it. -/
theorem ofrep_httpError_result (single : Bool) (r : HttpResponse)
    (hok : respOk r = false) (h304 : r.status ≠ 304) :
    (∀ fs, ctIsJson r = true → r.bodyJson = some (Json.obj fs) → fs ≠ [] →
      handleResponse single r =
        Json.obj [("status", Json.num (r.status : Int)), ("error", Json.obj fs)]) ∧
    (∀ s, ctIsJson r = true → r.bodyJson = some (Json.str s) → s ≠ "" →
      handleResponse single r =
        Json.obj [("status", Json.num (r.status : Int)), ("error", Json.str s)]) ∧
    (ctIsJson r = false → r.bodyText ≠ "" →
      handleResponse single r =
        Json.obj [("status", Json.num (r.status : Int)), ("error", Json.str r.bodyText)]) ∧
    (ctIsJson r = true → r.bodyJson = some (Json.obj []) →
      handleResponse single r =
        Json.obj [("status", Json.num (r.status : Int)), ("error", Json.str "")]) ∧
    (ctIsJson r = true → r.bodyJson = none →
      handleResponse single r =
        Json.obj [("status", Json.num (r.status : Int)), ("error", Json.str "")]) := by
  refine ⟨?_, ?_, ?_, ?_, ?_⟩
  · intro fs hct hbj hfs
    simp [handleResponse, h304, hok, respData, hct, hbj, jsErrorMessage, jsHasData, hfs]
  · intro s hct hbj hs
    simp [handleResponse, h304, hok, respData, hct, hbj, jsErrorMessage, jsHasData, hs]
  · intro hct hbt
    simp [handleResponse, h304, hok, respData, hct, jsErrorMessage, jsHasData, hbt]
  · intro hct hbj
    simp [handleResponse, h304, hok, respData, hct, hbj, jsErrorMessage, jsHasData]
  · intro hct hbj
    simp [handleResponse, h304, hok, respData, hct, hbj, jsErrorMessage, jsHasData]

/-- C6 witness: the 404 response with JSON body `{errorCode: FLAG_NOT_FOUND}`
yields `{status: 404, error: {errorCode: FLAG_NOT_FOUND}}`. -/
theorem ofrep_httpError_result_witness :
    handleResponse true r404 =
      Json.obj [("status", Json.num 404),
        ("error", Json.obj [("errorCode", Json.str "FLAG_NOT_FOUND")])] :=
  (ofrep_httpError_result true r404 rfl (by decide)).1
    [("errorCode", Json.str "FLAG_NOT_FOUND")] rfl rfl (by simp)

/-- C8: if any element of the providers list is outside the fixed provider
set, the whole call fails (the guide text, with or without appendix, is
never returned). -/
theorem installGuide_unknownProvider (t : InstallTables) (guide : String)
    (provs : List String) (p : String) (hp : p ∈ provs)
    (hnp : p ∉ t.providers) :
    (installGuide t guide provs).isErr = true := by
  by_cases hg : guide ∈ t.guides
  · have hall : ¬ ∀ x ∈ provs, x ∈ t.providers := fun h => hnp (h p hp)
    simp [installGuide, hg, hall, InstallResult.isErr]
  · simp [installGuide, hg, InstallResult.isErr]

set_option maxRecDepth 4000 in
/-- C8 witness: a provider id outside the sample table fails the call. -/
theorem installGuide_unknownProvider_witness :
    (installGuide tSample "javascript" ["acme", "bogus"]).isErr = true :=
  installGuide_unknownProvider tSample "javascript" ["acme", "bogus"] "bogus"
    (by decide) (by decide)

/-- When every listed provider is present in the doc table and maps a
non-empty URL for the guide, the notes loop produces exactly one URL line
per provider, in input order. -/
lemma buildNotes_allDocs (t : InstallTables) (guide : String) :
    ∀ provs : List String,
      (∀ p ∈ provs, docUrl t p guide ≠ "" ∧ (assocFind t.providerDocs p).isSome = true) →
      buildNotes t guide provs =
        Except.ok (provs.map (fun p => urlNoteLine p guide (docUrl t p guide)))
  | [], _ => rfl
  | p :: rest, h => by
    obtain ⟨hu, hs⟩ := h p (by simp)
    obtain ⟨links, hl⟩ := Option.isSome_iff_exists.mp hs
    have ih := buildNotes_allDocs t guide rest (fun q hq => h q (by simp [hq]))
    have hurl : docUrl t p guide = (assocFind links guide).getD "" := by
      simp [docUrl, hl]
    have htr : strTruthy ((assocFind links guide).getD "") = true := by
      simp only [strTruthy, bne_iff_ne, ne_eq]
      rw [← hurl]
      exact hu
    have hnote : providerNote t guide p =
        Except.ok (urlNoteLine p guide (docUrl t p guide)) := by
      simp [providerNote, hl, htr, urlNoteLine, hurl]
    simp [buildNotes, hnote, ih]

/-- C9: for a guide in the fixed set, an empty providers list returns the
bundled text exactly; a non-empty providers list in which every provider
maps a URL for the guide returns the bundled text followed by the
horizontal-rule appendix holding one URL instruction line per provider, in
input order. -/
theorem installGuide_appendix (t : InstallTables) (guide : String) (provs : List String)
    (hg : guide ∈ t.guides)
    (hp : ∀ p ∈ provs, p ∈ t.providers)
    (hd : ∀ p ∈ provs, docUrl t p guide ≠ "" ∧ (assocFind t.providerDocs p).isSome = true) :
    installGuide t guide [] = InstallResult.ok ((assocFind t.prompts guide).getD "") ∧
    (provs ≠ [] →
      installGuide t guide provs =
        InstallResult.ok ((assocFind t.prompts guide).getD "" ++
          ("\n\n---\n\nProvider installation instructions for " ++ guide ++ ":\n\n" ++
            String.intercalate "\n"
              (provs.map (fun p => urlNoteLine p guide (docUrl t p guide)))))) := by
  constructor
  · simp [installGuide, hg, buildNotes, providersAppendix]
  · intro hne
    have hbn := buildNotes_allDocs t guide provs hd
    have hmapne : (provs.map (fun p => urlNoteLine p guide (docUrl t p guide))).isEmpty = false := by
      rw [List.isEmpty_eq_false]
      simp [hne]
    simp [installGuide, hg, hbn, providersAppendix, hmapne]
    exact hp

set_option maxRecDepth 4000 in
/-- C9 witness: the sample table returns the bare bundled prompt for an
empty providers list, and the prompt plus the acme instruction line for
`["acme"]`. -/
theorem installGuide_appendix_witness :
    installGuide tSample "javascript" [] = InstallResult.ok "JS PROMPT" ∧
    installGuide tSample "javascript" ["acme"] =
      InstallResult.ok ("JS PROMPT\n\n---\n\nProvider installation instructions for javascript:\n\n- **acme**: Fetch the provider installation instructions from this link: https://docs.example/acme-js. Follow the documentation to install and configure this provider alongside the OpenFeature javascript SDK.") :=
  have h := installGuide_appendix tSample "javascript" ["acme"]
    (by decide) (by decide) (by decide)
  ⟨h.1, h.2 (by decide)⟩

/-- C10: a config file whose OFREP section has a non-empty `baseUrl` but
none of `bearerToken`, `token`, `apiKey` fails the schema refinement, so the
whole file is rejected (as if missing or unparseable) and, absent any other
base-URL source, the call ends in the configuration-missing result. -/
theorem configFile_requiresAuth (fs gs : List (String × Json)) (b : String)
    (hOfrep : assocFind fs "OFREP" = some (Json.obj gs))
    (hBase : assocFind gs "baseUrl" = some (Json.str b)) (_hb : b ≠ "")
    (hBt : assocFind gs "bearerToken" = none)
    (hTk : assocFind gs "token" = none)
    (hAk : assocFind gs "apiKey" = none) :
    readConfigFromFile (some (Json.obj fs)) = none ∧
    ∀ args env outcome, args.base_url = none →
      env.openfeatureOfrepBaseUrl = none → env.ofrepBaseUrl = none →
      ofrepFlagEval args env (some (Json.obj fs)) outcome =
        ToolOutcome.missingConfig missingBaseUrlMsg := by
  have hrf : readConfigFromFile (some (Json.obj fs)) = none := by
    simp [readConfigFromFile, hOfrep, parseOfrepConfig, hBase, parseOptStr,
      hBt, hTk, hAk, optTruthy]
  refine ⟨hrf, ?_⟩
  intro args env outcome h1 h2 h3
  exact ofrepFlagEval_noConfig args env _ outcome
    (resolveConfig_noBase args env _ (Or.inl h1) (Or.inl h2) (Or.inl h3)
      (fun c hc => by rw [hrf] at hc; cases hc))

/-- C10 witness: a concrete auth-less config file is rejected and the call
reports missing configuration. -/
theorem configFile_requiresAuth_witness :
    readConfigFromFile (some (Json.obj fileNoAuth)) = none ∧
    ofrepFlagEval argsBulkPlain envEmpty (some (Json.obj fileNoAuth))
      (FetchOutcome.failure "unreached") =
      ToolOutcome.missingConfig missingBaseUrlMsg :=
  have h := configFile_requiresAuth fileNoAuth
    [("baseUrl", Json.str "https://cfg.example.com")] "https://cfg.example.com"
    rfl rfl (by decide) rfl rfl rfl
  ⟨h.1, h.2 argsBulkPlain envEmpty (FetchOutcome.failure "unreached") rfl rfl rfl⟩
